import Mathlib

/-!
Verification of the KuberaTreasury Payment Factory service.

Shallow embedding of `src/app/services/payment_factory.py` (payment state
machine, IBAN/BIC validators, sanctions screening, funds check, four-eyes
approval) together with the data model of `src/app/models/payments.py`.

Python `Decimal` amounts are modelled as exact rationals (`Rat`); `datetime`
values are carried as opaque ISO strings supplied by the caller; the
SQLAlchemy session is modelled as an explicit record of inserted
`SanctionsAlert` and audit rows.  Exceptions are modelled with `Except` over
an explicit error type mirroring `src/app/core/exceptions.py`.
-/

deriving instance DecidableEq for Except

set_option maxRecDepth 100000

namespace Kubera

/-- Python `str.upper()` on ASCII content, computed characterwise so the
kernel can evaluate it. -/
def pyUpper (s : String) : String := ⟨s.data.map Char.toUpper⟩

/-- Python `s.replace(" ", "")`: removing every space is a filter. -/
def stripSpaces (s : String) : String := ⟨s.data.filter (fun c => c ≠ ' ')⟩

/-- Python `str.strip()` (whitespace at both ends), list-based. -/
def pyStrip (s : String) : String :=
  ⟨((s.data.dropWhile Char.isWhitespace).reverse.dropWhile Char.isWhitespace).reverse⟩

/-- First `n` characters of a string (Python `s[:n]`), list-based. -/
def strTake (s : String) (n : Nat) : String := ⟨s.data.take n⟩

/-- All but the first `n` characters (Python `s[n:]`), list-based. -/
def strDrop (s : String) (n : Nat) : String := ⟨s.data.drop n⟩

/-- Errors raised by the payment factory, mirroring `app/core/exceptions.py`.
`valueError` stands for a raw Python `ValueError` escaping from `int()`. -/
inductive PyError where
  | invalidStateTransition (current target : String)
  | invalidIBAN (iban : String)
  | invalidBIC (bic : String)
  | insufficientFunds (available requested : Rat)
  | sanctionsHit (payment_id matched_field matched_value list_entry_name list_type : String)
      (similarity_score : Rat)
  | selfApproval (user_id : String)
  | invalidSignature (payment_id : String)
  | paymentNotFound (payment_id : String)
  | accountNotFound (account_id : String)
  | valueError
  deriving DecidableEq, Repr

/-! ## Payment state machine (`ALLOWED_TRANSITIONS`, `advance_state`) -/

/-- The allowed-transitions table from `payment_factory.py`. -/
def ALLOWED_TRANSITIONS : List (String × List String) :=
  [ ("DRAFT", ["PENDING_APPROVAL"]),
    ("PENDING_APPROVAL", ["APPROVED", "REJECTED"]),
    ("APPROVED", ["SANCTIONS_REVIEW"]),
    ("SANCTIONS_REVIEW", ["FUNDS_CHECKED", "FROZEN"]),
    ("FUNDS_CHECKED", ["VALIDATED", "INSUFFICIENT_FUNDS"]),
    ("VALIDATED", ["EXPORTED", "FAILED_VALIDATION"]),
    ("EXPORTED", ["SETTLED"]),
    ("SETTLED", []),
    ("REJECTED", []),
    ("FROZEN", []),
    ("FAILED_VALIDATION", []),
    ("INSUFFICIENT_FUNDS", []) ]

/-- Lookup `ALLOWED_TRANSITIONS.get(current, set())`. -/
def allowedTargets (current : String) : List String :=
  (ALLOWED_TRANSITIONS.lookup current).getD []

/-- Source `advance_state`: validate and advance the payment state machine. -/
def advance_state (current target : String) : Except PyError String :=
  if target ∈ allowedTargets current then .ok target
  else .error (.invalidStateTransition current target)

/-! ## IBAN / BIC validation -/

/-- The `IBAN_LENGTHS` per-country expected-length table. -/
def IBAN_LENGTHS : List (String × Nat) :=
  [ ("GB", 22), ("DE", 22), ("FR", 27), ("NL", 18), ("ES", 24),
    ("IT", 27), ("CH", 21), ("AT", 20), ("BE", 16), ("SE", 24) ]

/-- Digit run of a Python `int()` literal: digits, with single underscores
allowed between digits (`acc` carries the digits already read). -/
def pyDigitsAux (acc : Nat) : List Char → Option Nat
  | [] => some acc
  | c :: rest =>
    if c.isDigit then pyDigitsAux (acc * 10 + (c.toNat - 48)) rest
    else if c = '_' then
      match rest with
      | d :: rest2 =>
        if d.isDigit then pyDigitsAux (acc * 10 + (d.toNat - 48)) rest2 else none
      | [] => none
    else none

/-- Model of Python `int(s)` on ASCII content: optional surrounding
whitespace, optional sign, then a nonempty digit run with single
underscores between digits; anything else raises `ValueError` (`none`). -/
def pyInt (s : String) : Option Int :=
  let cs := (pyStrip s).data
  let signed : Int × List Char :=
    match cs with
    | '+' :: r => (1, r)
    | '-' :: r => (-1, r)
    | r => (1, r)
  match signed.2 with
  | c :: rest =>
    if c.isDigit then (pyDigitsAux (c.toNat - 48) rest).map (fun n => signed.1 * n)
    else none
  | [] => none

/-- Source `_iban_mod97`: move the first four characters to the end, replace each
letter `c` by `str(ord(c) - 55)`, and reduce the resulting numeral mod 97.
`none` models the `ValueError` that `int()` raises when the rearranged
string still contains a character that is neither a letter nor a digit. -/
def ibanMod97 (iban : String) : Option Int :=
  let rearranged := strDrop iban 4 ++ strTake iban 4
  let numeric := String.join (rearranged.data.map
    (fun c => if c.isAlpha then toString (c.toNat - 55) else String.singleton c))
  (pyInt numeric).map (fun n => n % 97)

/-- Normalization performed by `validate_iban_field`: strip spaces, uppercase. -/
def normalizeIban (s : String) : String :=
  pyUpper (stripSpaces s)

/-- Source `validate_iban_field`.  Result `.ok none` means the IBAN is valid, `.ok (some e)`
is a validation-error string, and `.error .valueError` models the unhandled
`ValueError` escaping from `int()` inside `_iban_mod97`. -/
def validate_iban_field (iban0 : String) : Except PyError (Option String) :=
  let iban := normalizeIban iban0
  if iban.length < 4 then .ok (some "IBAN too short")
  else if ¬ (strTake iban 2).data.all Char.isAlpha then
    .ok (some "IBAN must start with 2-letter country code")
  else
    let expected := IBAN_LENGTHS.lookup (strTake iban 2)
    match expected with
    | some e =>
      if iban.length ≠ e then .ok (some "IBAN length invalid for country")
      else
        match ibanMod97 iban with
        | none => .error .valueError
        | some r => if r ≠ 1 then .ok (some "IBAN check digits failed MOD-97") else .ok none
    | none =>
      match ibanMod97 iban with
      | none => .error .valueError
      | some r => if r ≠ 1 then .ok (some "IBAN check digits failed MOD-97") else .ok none

/-- Character range `'A' ≤ c ≤ 'Z'`. -/
def isUpperAZ (c : Char) : Bool := 'A' ≤ c && c ≤ 'Z'

/-- Core of `BIC_REGEX` on the first eight characters:
`[A-Z]{6}[A-Z2-9][A-NP-Z0-9]`. -/
def bicCore8 (cs : List Char) : Bool :=
  match cs with
  | [c1, c2, c3, c4, c5, c6, c7, c8] =>
    [c1, c2, c3, c4, c5, c6].all isUpperAZ
      && (isUpperAZ c7 || ('2' ≤ c7 && c7 ≤ '9'))
      && ((isUpperAZ c8 && c8 ≠ 'O') || c8.isDigit)
  | _ => false

/-- Predicate for `BIC_REGEX = ^[A-Z]{6}[A-Z2-9][A-NP-Z0-9]([A-Z0-9]{3})?$`
(8 or 11 characters). -/
def bicMatches (s : String) : Bool :=
  match s.data with
  | [c1, c2, c3, c4, c5, c6, c7, c8] =>
    bicCore8 [c1, c2, c3, c4, c5, c6, c7, c8]
  | c1 :: c2 :: c3 :: c4 :: c5 :: c6 :: c7 :: c8 :: rest =>
    bicCore8 [c1, c2, c3, c4, c5, c6, c7, c8]
      && rest.length = 3 && rest.all (fun c => isUpperAZ c || c.isDigit)
  | _ => false

/-- Source `validate_bic_field`: `none` means valid, `some msg` is the error string. -/
def validate_bic_field (bic : String) : Option String :=
  if bicMatches (pyUpper bic) then none
  else some "BIC does not match expected format"

/-! ## `difflib.SequenceMatcher.ratio`

The screener's fuzzy name match calls Python's standard-library
`difflib.SequenceMatcher(None, a, b).ratio()`.  The algorithm below follows
CPython's `difflib.py`: `b2j` (occurrence positions in `b`, with the
"autojunk" popularity rule for `len(b) >= 200`), `find_longest_match`
(dynamic row scan plus the four junk/non-junk extension loops),
`get_matching_blocks` (recursive splitting around the longest match; only
the total matched size is needed for `ratio`), and
`ratio = 2 * matches / (len(a) + len(b))`, computed here in exact rational
arithmetic in place of IEEE floats. -/

/-- Autojunk: for `len(b) >= 200`, characters occurring more than
`len(b) // 100 + 1` times are treated as junk. -/
def autojunkChars (b : List Char) : List Char :=
  if b.length < 200 then []
  else b.dedup.filter (fun c => b.length / 100 + 1 < b.count c)

/-- Occurrence map `b2j[c]`: ascending positions of `c` in `b`, empty for junk characters. -/
def b2jOf (b : List Char) (junk : List Char) (c : Char) : List Nat :=
  if junk.contains c then []
  else (List.range b.length).filter (fun j => b.getD j ' ' == c)

/-- Inner loop of `find_longest_match` over the occurrence list of `a[i]`:
carries the previous row `j2len`, accumulates the new row and the running
best `(besti, bestj, bestsize)`.  `if j < blo: continue`, `if j >= bhi:
break`, `k = j2len.get(j-1, 0) + 1`, update best when `k > bestsize`. -/
def flmInner (j2len : List (Nat × Nat)) (i blo bhi : Nat) :
    List Nat → List (Nat × Nat) → Nat → Nat → Nat →
      List (Nat × Nat) × Nat × Nat × Nat
  | [], newj2len, bi, bj, bs => (newj2len, bi, bj, bs)
  | j :: js, newj2len, bi, bj, bs =>
    if j < blo then flmInner j2len i blo bhi js newj2len bi bj bs
    else if bhi ≤ j then (newj2len, bi, bj, bs)
    else
      let k := (if j = 0 then 0 else (j2len.lookup (j - 1)).getD 0) + 1
      let newj2len1 := newj2len ++ [(j, k)]
      if bs < k then flmInner j2len i blo bhi js newj2len1 (i + 1 - k) (j + 1 - k) k
      else flmInner j2len i blo bhi js newj2len1 bi bj bs

/-- Row scan of `find_longest_match` before the extension loops. -/
def flmRows (a b : List Char) (junk : List Char) (alo ahi blo bhi : Nat) :
    Nat × Nat × Nat :=
  let fin := (List.range' alo (ahi - alo)).foldl
    (fun st i =>
      let inner := flmInner st.1 i blo bhi (b2jOf b junk (a.getD i ' '))
        [] st.2.1 st.2.2.1 st.2.2.2
      inner)
    (([] : List (Nat × Nat)), alo, blo, 0)
  fin.2

/-- Backward extension loop of `find_longest_match`: while the characters
just before the match are equal and have junk status `want`, grow the match
to the left.  Each iteration needs `alo < besti` and lowers `besti` by one,
so structural fuel `besti` reproduces the Python `while` loop exactly. -/
def extBack (a b : List Char) (alo blo : Nat) (junk : List Char) (want : Bool) :
    Nat → Nat → Nat → Nat → Nat × Nat × Nat
  | 0, besti, bestj, bestsize => (besti, bestj, bestsize)
  | fuel + 1, besti, bestj, bestsize =>
    if alo < besti ∧ blo < bestj
        ∧ junk.contains (b.getD (bestj - 1) ' ') = want
        ∧ a.getD (besti - 1) ' ' = b.getD (bestj - 1) ' ' then
      extBack a b alo blo junk want fuel (besti - 1) (bestj - 1) (bestsize + 1)
    else (besti, bestj, bestsize)

/-- Forward extension loop of `find_longest_match`: symmetric to `extBack`,
growing the match to the right; only the size changes.  Each iteration
needs `besti + bestsize < ahi`, so structural fuel `ahi` is ample. -/
def extFwd (a b : List Char) (ahi bhi : Nat) (junk : List Char) (want : Bool) :
    Nat → Nat → Nat → Nat → Nat
  | 0, _, _, bestsize => bestsize
  | fuel + 1, besti, bestj, bestsize =>
    if besti + bestsize < ahi ∧ bestj + bestsize < bhi
        ∧ junk.contains (b.getD (bestj + bestsize) ' ') = want
        ∧ a.getD (besti + bestsize) ' ' = b.getD (bestj + bestsize) ' ' then
      extFwd a b ahi bhi junk want fuel besti bestj (bestsize + 1)
    else bestsize

/-- Source `find_longest_match(alo, ahi, blo, bhi)`: longest matching block of
`a[alo:ahi]` and `b[blo:bhi]`, as `(besti, bestj, bestsize)`.  The screener
constructs `SequenceMatcher(None, …)`, so `isjunk` is `None` and the
`bjunk` set consulted by the four extension loops is empty (autojunk's
popular characters are only pruned from `b2j`, which `junk` feeds); the
loops therefore extend over equal characters (`want = false`) and the
junk-phase loops (`want = true`) never fire. -/
def find_longest_match (a b : List Char) (junk : List Char)
    (alo ahi blo bhi : Nat) : Nat × Nat × Nat :=
  let bjunk : List Char := []
  let r0 := flmRows a b junk alo ahi blo bhi
  let r1 := extBack a b alo blo bjunk false r0.1 r0.1 r0.2.1 r0.2.2
  let s2 := extFwd a b ahi bhi bjunk false ahi r1.1 r1.2.1 r1.2.2
  let r3 := extBack a b alo blo bjunk true r1.1 r1.1 r1.2.1 s2
  let s4 := extFwd a b ahi bhi bjunk true ahi r3.1 r3.2.1 r3.2.2
  (r3.1, r3.2.1, s4)

/-- Total size of all matching blocks (`get_matching_blocks` keeps the
longest match and recurses on the pieces to its left and right; `ratio`
only needs the sum of the block sizes).  `fuel` bounds the recursion depth
and is chosen ample by `sequenceMatcherRatio`. -/
def matchSum (a b : List Char) (junk : List Char) :
    Nat → Nat → Nat → Nat → Nat → Nat
  | 0, _, _, _, _ => 0
  | fuel + 1, alo, ahi, blo, bhi =>
    let m := find_longest_match a b junk alo ahi blo bhi
    let i := m.1
    let j := m.2.1
    let k := m.2.2
    if k = 0 then 0
    else
      k + (if alo < i ∧ blo < j then matchSum a b junk fuel alo i blo j else 0)
        + (if i + k < ahi ∧ j + k < bhi then matchSum a b junk fuel (i + k) ahi (j + k) bhi
           else 0)

/-- Ratio `SequenceMatcher(None, sa, sb).ratio()`:
`2 * matches / (len(a) + len(b))`, and `1.0` when both are empty.  The
division is expressed with `mkRat` so the kernel can evaluate it. -/
def sequenceMatcherRatio (sa sb : String) : Rat :=
  let a := sa.data
  let b := sb.data
  let junk := autojunkChars b
  let total := matchSum a b junk (a.length + b.length + 1) 0 a.length 0 b.length
  if a.length + b.length = 0 then 1
  else mkRat (2 * total) (a.length + b.length)

/-! ## Exact decimal arithmetic

Python computes amounts with `Decimal` (exact at the scales used here) and
similarity thresholds with floats; both are modelled as exact rationals.
Batteries marks `Rat.add` irreducible, so the service definitions use
`ratAdd`, which the kernel can evaluate and which provably equals `+`. -/

/-- Addition on `Rat` through `mkRat`, definitionally evaluable. -/
def ratAdd (a b : Rat) : Rat :=
  mkRat (a.num * (b.den : Int) + b.num * (a.den : Int)) (a.den * b.den)

/-- Python `round(x, 4)` (banker's rounding to four decimal places), on
exact rationals: round-half-to-even of `x * 10^4`. -/
def round4 (q : Rat) : Rat :=
  let n : Int := q.num * 10000
  let d : Int := (q.den : Int)
  let f : Int := Int.fdiv n d
  let r : Int := n - f * d
  let up : Bool := (d < 2 * r) || (2 * r = d && f % 2 ≠ 0)
  mkRat (if up then f + 1 else f) 10000

/-! ## Data model (`app/models/payments.py`) -/

/-- The `Payment` aggregate (ORM row), timestamps as opaque ISO strings. -/
structure Payment where
  id : String
  maker_user_id : String
  checker_user_id : Option String
  debtor_account_id : String
  debtor_iban : String
  beneficiary_name : String
  beneficiary_bic : String
  beneficiary_iban : String
  beneficiary_country : String
  amount : Rat
  currency : String
  end_to_end_id : String
  execution_date : String
  remittance_info : Option String
  status : String
  approval_signature : Option String
  approval_public_key_pem : Option String
  approval_public_key_fingerprint : Option String
  approval_timestamp : Option String
  pain001_xml : Option String
  created_at : String
  updated_at : Option String
  deriving DecidableEq, Repr, Inhabited

/-- A `SanctionsAlert` row. -/
structure SanctionsAlert where
  payment_id : String
  matched_field : String
  matched_value : String
  list_entry_name : String
  list_type : String
  similarity_score : Rat
  created_at : String
  deriving DecidableEq, Repr

/-- A `PaymentAuditLog` row. -/
structure PaymentAuditLog where
  payment_id : Option String
  user_id : Option String
  action : String
  details : Option String
  created_at : String
  deriving DecidableEq, Repr

/-- The persistence boundary: rows inserted through the session. -/
structure Session where
  alerts : List SanctionsAlert
  audits : List PaymentAuditLog
  deriving DecidableEq, Repr

/-- A `BankAccount` row as the funds check reads it: the overdraft limit
and the `value_date_balance` of the most recent `CashPosition` (the query
orders by `position_date` descending and takes the first row; the
database boundary is modelled as directly supplying that latest balance,
`none` when the account has no cash positions). -/
structure BankAccount where
  overdraft_limit : Rat
  latest_value_date_balance : Option Rat
  deriving DecidableEq, Repr

/-- Database environment: account lookup by id. -/
structure Env where
  accounts : String → Option BankAccount

/-- The `PaymentRequest` dataclass. -/
structure PaymentRequest where
  debtor_account_id : String
  debtor_iban : String
  beneficiary_name : String
  beneficiary_bic : String
  beneficiary_iban : String
  beneficiary_country : String
  amount : Rat
  currency : String
  execution_date : String
  remittance_info : Option String := none
  end_to_end_id : Option String := none
  deriving DecidableEq, Repr

/-- The `ApprovalResult` dataclass. -/
structure ApprovalResult where
  payment_id : String
  checker_user_id : String
  status : String
  signature_fingerprint : String
  approved_at : String
  deriving DecidableEq, Repr

/-! ## Sanctions screening (`SanctionsScreeningService`) -/

/-- One OFAC watch-list entry. -/
structure WatchEntry where
  name : String
  bic : String
  country : String
  list_type : String
  deriving DecidableEq, Repr

/-- The static `MOCK_OFAC_LIST`. -/
def MOCK_OFAC_LIST : List WatchEntry :=
  [ ⟨"NEXUS_BLOCKED_CORP", "BLCKUS33XXX", "IR", "SDN"⟩,
    ⟨"PHANTOM_TRADE_LTD", "PHNTGB2LXXX", "KP", "SDN"⟩,
    ⟨"DARK_FINANCE_AG", "DRKNDE00XXX", "SY", "SDN"⟩,
    ⟨"ROGUE_CAPITAL_PARTNERS", "ROGUUS44XXX", "CU", "NONSDN"⟩,
    ⟨"SHADOW_BANK_INTL", "SHDWSG1XXXX", "MM", "SDN"⟩,
    ⟨"Oleg Deripaska", "OLEGRU22XXX", "RU", "SDN"⟩ ]

/-- The screening service: an injectable list and a threshold
(constructor defaults: `MOCK_OFAC_LIST`, `0.85`). -/
structure SanctionsScreeningService where
  ofac_list : List WatchEntry := MOCK_OFAC_LIST
  threshold : Rat := mkRat 17 20
  deriving DecidableEq, Repr

/-- The dict returned by `SanctionsScreeningService._record_hit` (also the
payload of `SanctionsHitError`). -/
structure SanctionsHitInfo where
  payment_id : String
  matched_field : String
  matched_value : String
  list_entry_name : String
  list_type : String
  similarity_score : Rat
  deriving DecidableEq, Repr

/-- Source `_record_hit`: set the payment `status` to `"FROZEN"` **directly**
(without `advance_state`), stamp `updated_at`, insert a `SanctionsAlert`
row (score rounded to 4 places), and return the hit dict. -/
def recordHit (now : String) (sess : Session) (p : Payment)
    (matched_field matched_value : String) (e : WatchEntry) (score : Rat) :
    Option SanctionsHitInfo × Session × Payment :=
  let p1 := { p with status := "FROZEN", updated_at := some now }
  let alert : SanctionsAlert :=
    ⟨p.id, matched_field, matched_value, e.name, e.list_type, round4 score, now⟩
  (some ⟨p.id, matched_field, matched_value, e.name, e.list_type, score⟩,
    { sess with alerts := sess.alerts ++ [alert] }, p1)

/-- Source `SanctionsScreeningService.screen`: exact case-insensitive BIC match,
then exact case-insensitive country match, then fuzzy name match at or
above the threshold; the first winning rule is recorded immediately. -/
def SanctionsScreeningService.screen (svc : SanctionsScreeningService)
    (now : String) (sess : Session) (p : Payment) :
    Option SanctionsHitInfo × Session × Payment :=
  match svc.ofac_list.find? (fun e => pyUpper p.beneficiary_bic == pyUpper e.bic) with
  | some e => recordHit now sess p "bic" p.beneficiary_bic e 1
  | none =>
  match svc.ofac_list.find?
      (fun e => pyUpper p.beneficiary_country == pyUpper e.country) with
  | some e => recordHit now sess p "country" p.beneficiary_country e 1
  | none =>
  match svc.ofac_list.find? (fun e =>
      decide (svc.threshold ≤ sequenceMatcherRatio (pyUpper p.beneficiary_name)
        (pyUpper e.name))) with
  | some e =>
    recordHit now sess p "name" p.beneficiary_name e
      (sequenceMatcherRatio (pyUpper p.beneficiary_name) (pyUpper e.name))
  | none => (none, sess, p)

/-! ## Approval / signature protocol (`sign_approval`, `verify_approval_signature`)

The RSA-PKCS#1-v1.5/SHA-256 primitive lives in the external `cryptography`
library, outside this repository; it is modelled by its contract: an
abstract deterministic signature scheme (private keys are opaque handles,
signatures and payloads are strings) with correctness, unforgeability and
message binding, plus the base64 and PEM codecs it is used with.  The
repository's own code — canonical payload construction and the
`InvalidSignature` error discipline — is embedded exactly. -/

/-- Abstract model of the `cryptography` RSA signature primitive together
with base64/PEM codecs.  `sign`, `pub`, `verifyOK` are the scheme;
the `Prop` fields are the contract the library provides. -/
structure SigModel where
  sign : Nat → String → String
  pub : Nat → Nat
  verifyOK : Nat → String → String → Bool
  pem : Nat → String
  loadPem : String → Nat
  fingerprintOf : Nat → String
  b64e : String → String
  b64d : String → String
  correct : ∀ k m, verifyOK (pub k) (sign k m) m = true
  complete : ∀ p s m, verifyOK p s m = true → ∃ k, pub k = p ∧ s = sign k m
  signInj : ∀ k k' m m', sign k m = sign k' m' → pub k = pub k' ∧ m = m'
  signDet : ∀ k k' m, pub k = pub k' → sign k m = sign k' m
  load_pem : ∀ p, loadPem (pem p) = p
  b64_rt : ∀ s, b64d (b64e s) = s

/-- The canonical payload `f"{payment_id}|{amount}|{timestamp.isoformat()}"`
(the amount is carried as its rendered decimal string). -/
def approvalPayload (payment_id amount ts : String) : String :=
  payment_id ++ "|" ++ amount ++ "|" ++ ts

/-- Source `sign_approval`: sign the canonical payload with the private key. -/
def sign_approval (M : SigModel) (payment_id amount ts : String)
    (private_key : Nat) : String :=
  M.sign private_key (approvalPayload payment_id amount ts)

/-- Source `verify_approval_signature`: load the PEM public key, recompute the
identical payload, base64-decode the signature and verify; on failure
raise `InvalidSignatureError(payment_id)` (never `False`, and never
revealing which component mismatched). -/
def verify_approval_signature (M : SigModel) (payment_id amount ts : String)
    (signature_b64 public_key_pem : String) : Except PyError Bool :=
  let public_key := M.loadPem public_key_pem
  let payload := approvalPayload payment_id amount ts
  let sig_bytes := M.b64d signature_b64
  if M.verifyOK public_key sig_bytes payload then .ok true
  else .error (.invalidSignature payment_id)

/-! ## Payment service (`PaymentService`) -/

/-- Modelled from the spec: the service's `_audit` helper is referenced at
its call sites but its definition lies beyond the end of the provided
source file; §3 of the spec describes AuditEntry as an append-only record
of state-changing actions (payment id, acting user, action, optional
details).  It appends one `PaymentAuditLog` row. -/
def auditLog (sess : Session) (payment_id user_id action : String)
    (details : Option String) (now : String) : Session :=
  { sess with audits := sess.audits ++ [⟨some payment_id, some user_id, action, details, now⟩] }

/-- Rendering of the hit dict for the audit `details` column (an
abstraction of Python's `str(hit)` / f-string renderings). -/
def hitDetails (h : SanctionsHitInfo) : String :=
  "field=" ++ h.matched_field ++ " entry=" ++ h.list_entry_name

/-- The funds-sufficiency check of `initiate_payment`: when the debtor
account row exists, the available amount is its latest value-date balance
(`0` when it has no cash positions) plus the overdraft limit; the check
fails exactly when the requested amount strictly exceeds it.  When no
account row matches, no check happens at all. -/
def fundsShortfall (env : Env) (account_id : String) (requested : Rat) :
    Option PyError :=
  match env.accounts account_id with
  | some account =>
    let current_balance := account.latest_value_date_balance.getD 0
    let available := ratAdd current_balance account.overdraft_limit
    if available < requested then some (.insufficientFunds available requested)
    else none
  | none => none

/-- The `Payment` row constructed by `initiate_payment` (status `DRAFT`,
`end_to_end_id` from the request when truthy, else the generated
`E2E-…` value — Python's `or` also replaces an empty string). -/
def mkDraftPayment (req : PaymentRequest) (maker_user_id new_payment_id
    e2e_generated now : String) : Payment :=
  { id := new_payment_id
    maker_user_id := maker_user_id
    checker_user_id := none
    debtor_account_id := req.debtor_account_id
    debtor_iban := req.debtor_iban
    beneficiary_name := req.beneficiary_name
    beneficiary_bic := req.beneficiary_bic
    beneficiary_iban := req.beneficiary_iban
    beneficiary_country := req.beneficiary_country
    amount := req.amount
    currency := req.currency
    end_to_end_id :=
      match req.end_to_end_id with
      | some s => if s = "" then e2e_generated else s
      | none => e2e_generated
    execution_date := req.execution_date
    remittance_info := req.remittance_info
    status := "DRAFT"
    approval_signature := none
    approval_public_key_pem := none
    approval_public_key_fingerprint := none
    approval_timestamp := none
    pain001_xml := none
    created_at := now
    updated_at := none }

/-- Outcome of `initiate_payment`: an error before any payment row exists,
a sanctions freeze (error raised, frozen payment committed), or success. -/
inductive InitOutcome where
  | errored (e : PyError)
  | frozenHit (e : PyError) (p : Payment)
  | ok (p : Payment)
  deriving DecidableEq, Repr, Inhabited

/-- The payment row persisted by an `initiate_payment` outcome, if any. -/
def InitOutcome.payment? : InitOutcome → Option Payment
  | .errored _ => none
  | .frozenHit _ p => some p
  | .ok p => some p

/-- Source `PaymentService.initiate_payment`.  Nondeterministic inputs of the
Python code are passed explicitly: `new_payment_id` and `e2e_generated`
stand for the `uuid4` draws, `now` for `datetime.utcnow()`. -/
def initiate_payment (env : Env) (svc : SanctionsScreeningService)
    (sess : Session) (req : PaymentRequest) (maker_user_id : String)
    (new_payment_id e2e_generated now : String) : InitOutcome × Session :=
  match validate_iban_field req.debtor_iban with
  | .error e => (.errored e, sess)
  | .ok (some _) => (.errored (.invalidIBAN req.debtor_iban), sess)
  | .ok none =>
  match validate_iban_field req.beneficiary_iban with
  | .error e => (.errored e, sess)
  | .ok (some _) => (.errored (.invalidIBAN req.beneficiary_iban), sess)
  | .ok none =>
  match validate_bic_field req.beneficiary_bic with
  | some _ => (.errored (.invalidBIC req.beneficiary_bic), sess)
  | none =>
  match fundsShortfall env req.debtor_account_id req.amount with
  | some e => (.errored e, sess)
  | none =>
  let payment := mkDraftPayment req maker_user_id new_payment_id e2e_generated now
  match svc.screen now sess payment with
  | (some hit, sess1, p1) =>
    let sess2 := auditLog sess1 p1.id "SYSTEM" "SANCTIONS_HIT" (some (hitDetails hit)) now
    (.frozenHit (.sanctionsHit hit.payment_id hit.matched_field hit.matched_value
        hit.list_entry_name hit.list_type hit.similarity_score) p1, sess2)
  | (none, sess1, p1) =>
    match advance_state "DRAFT" "PENDING_APPROVAL" with
    | .error e => (.errored e, sess1)
    | .ok st =>
      let p2 := { p1 with status := st, updated_at := some now }
      let sess2 := auditLog sess1 p2.id maker_user_id "PAYMENT_INITIATED" none now
      (.ok p2, sess2)

/-- Outcome of `approve_payment`, always carrying the payment row's state
when control returns (at the raise point for errors). -/
inductive ApproveOutcome where
  | errored (e : PyError) (p : Payment)
  | ok (r : ApprovalResult) (p : Payment)
  deriving DecidableEq, Repr

/-- The payment row carried by an `approve_payment` outcome. -/
def ApproveOutcome.payment : ApproveOutcome → Payment
  | .errored _ p => p
  | .ok _ p => p

/-- Source `PaymentService.approve_payment` on an already-loaded payment row.
The head (self-approval hard block, status gate, signing, the two-hop
`PENDING_APPROVAL → APPROVED → SANCTIONS_REVIEW` transition and the
re-screen) follows the source; the portion after
`advance_state("SANCTIONS_REVIEW", "FUNDS_CHECKED")` is modelled from the
spec (§4.1): the funds re-check raises `InsufficientFunds` and moves to the
`INSUFFICIENT_FUNDS` terminal state on failure, otherwise the call returns
an `ApprovalResult`. -/
def approve_payment (M : SigModel) (env : Env) (svc : SanctionsScreeningService)
    (sess : Session) (p : Payment) (checker_user_id : String)
    (private_key : Nat) (now : String) : ApproveOutcome × Session :=
  if checker_user_id = p.maker_user_id then
    (.errored (.selfApproval checker_user_id) p,
      auditLog sess p.id checker_user_id "SELF_APPROVAL_ATTEMPT" none now)
  else if p.status ≠ "PENDING_APPROVAL" then
    (.errored (.invalidStateTransition p.status "APPROVED") p, sess)
  else
    let amount_str := toString p.amount
    let sig_b64 := M.b64e (sign_approval M p.id amount_str now private_key)
    let pub_key := M.pub private_key
    let p1 := { p with
      checker_user_id := some checker_user_id
      approval_signature := some sig_b64
      approval_public_key_pem := some (M.pem pub_key)
      approval_public_key_fingerprint := some (M.fingerprintOf pub_key)
      approval_timestamp := some now }
    match advance_state "PENDING_APPROVAL" "APPROVED" with
    | .error e => (.errored e p1, sess)
    | .ok s1 =>
    match advance_state s1 "SANCTIONS_REVIEW" with
    | .error e => (.errored e { p1 with status := s1 }, sess)
    | .ok s2 =>
    let p2 := { p1 with status := s2, updated_at := some now }
    match svc.screen now sess p2 with
    | (some hit, sess1, p3) =>
      let sess2 := auditLog sess1 p.id "SYSTEM" "SANCTIONS_HIT" (some (hitDetails hit)) now
      (.errored (.sanctionsHit hit.payment_id hit.matched_field hit.matched_value
          hit.list_entry_name hit.list_type hit.similarity_score) p3, sess2)
    | (none, sess1, p3) =>
    match advance_state "SANCTIONS_REVIEW" "FUNDS_CHECKED" with
    | .error e => (.errored e p3, sess1)
    | .ok s3 =>
    let p4 := { p3 with status := s3, updated_at := some now }
    match fundsShortfall env p.debtor_account_id p.amount with
    | some e =>
      match advance_state "FUNDS_CHECKED" "INSUFFICIENT_FUNDS" with
      | .error e2 => (.errored e2 p4, sess1)
      | .ok s4 => (.errored e { p4 with status := s4, updated_at := some now }, sess1)
    | none =>
      (.ok ⟨p.id, checker_user_id, p4.status, M.fingerprintOf pub_key, now⟩ p4, sess1)

/-- Payment rows reachable through any sequence of
`initiate_payment` / `approve_payment` / screening operations (with
arbitrary environments, services and key material at each step),
including the rows persisted when an operation raises. -/
inductive ReachablePayment : Payment → Prop
  | initiated (env : Env) (svc : SanctionsScreeningService) (sess : Session)
      (req : PaymentRequest) (maker nid e2e now : String) (p : Payment) (sess1 : Session)
      (h : initiate_payment env svc sess req maker nid e2e now = (.ok p, sess1)) :
      ReachablePayment p
  | frozen (env : Env) (svc : SanctionsScreeningService) (sess : Session)
      (req : PaymentRequest) (maker nid e2e now : String) (e : PyError) (p : Payment)
      (sess1 : Session)
      (h : initiate_payment env svc sess req maker nid e2e now = (.frozenHit e p, sess1)) :
      ReachablePayment p
  | approved (M : SigModel) (env : Env) (svc : SanctionsScreeningService)
      (sess : Session) (p : Payment) (checker : String) (priv : Nat) (now : String)
      (hp : ReachablePayment p) :
      ReachablePayment (approve_payment M env svc sess p checker priv now).1.payment
  | screened (svc : SanctionsScreeningService) (now : String) (sess : Session)
      (p : Payment) (hp : ReachablePayment p) :
      ReachablePayment (svc.screen now sess p).2.2

/-! ## A concrete signature scheme satisfying the contract

Used to instantiate `SigModel` in witnesses: keys are naturals, a
signature is the key marker followed by the payload. -/

/-- Signature string of the ideal scheme: `k` stars, a bar, the payload. -/
def idealSign (k : Nat) (m : String) : String :=
  ⟨List.replicate k '*' ++ '|' :: m.data⟩

/-- The ideal scheme as a `SigModel`. -/
def idealSig : SigModel where
  sign := idealSign
  pub := id
  verifyOK := fun p s m => decide (s = idealSign p m)
  pem := fun p => ⟨List.replicate p '#'⟩
  loadPem := fun s => s.length
  fingerprintOf := fun p => toString p
  b64e := id
  b64d := id
  correct := by intro k m; simp
  complete := by
    intro p s m h
    rw [decide_eq_true_eq] at h
    exact ⟨p, rfl, h⟩
  signInj := by
    intro k k' m m' h
    have hd := congrArg String.data h
    simp only [idealSign] at hd
    have key : ∀ a : Nat, ∀ (b : Nat) (x y : List Char),
        List.replicate a '*' ++ '|' :: x = List.replicate b '*' ++ '|' :: y →
        a = b ∧ x = y := by
      intro a
      induction a with
      | zero =>
        intro b x y hxy
        cases b with
        | zero => exact ⟨rfl, by simpa using hxy⟩
        | succ n =>
          rw [List.replicate_succ] at hxy
          simp only [List.replicate_zero, List.nil_append, List.cons_append] at hxy
          injection hxy with hxy1 _
          exact absurd hxy1 (by decide)
      | succ n ih =>
        intro b x y hxy
        cases b with
        | zero =>
          rw [List.replicate_succ] at hxy
          simp only [List.replicate_zero, List.nil_append, List.cons_append] at hxy
          injection hxy with hxy1 _
          exact absurd hxy1 (by decide)
        | succ n2 =>
          rw [List.replicate_succ, List.replicate_succ] at hxy
          simp only [List.cons_append, List.cons.injEq] at hxy
          obtain ⟨hxy1, hxy2⟩ := ih n2 x y hxy.2
          exact ⟨by omega, hxy2⟩
    obtain ⟨h1, h2⟩ := key k k' m.data m'.data hd
    refine ⟨h1, ?_⟩
    cases m
    cases m'
    exact congrArg String.mk h2
  signDet := by
    intro k k' m h
    simp only [id] at h
    rw [h]
  load_pem := by intro p; simp [String.length]
  b64_rt := by intro s; rfl

/-! ## Demo fixtures -/

/-- An environment with one funded account: latest value-date balance 100,
overdraft limit 50. -/
def demoEnv : Env :=
  ⟨fun aid => if aid = "ACC-1" then some ⟨50, some 100⟩ else none⟩

/-- A clean payment request (valid IBANs/BIC, unsanctioned beneficiary). -/
def demoReqClean : PaymentRequest :=
  { debtor_account_id := "ACC-1"
    debtor_iban := "DE89370400440532013000"
    beneficiary_name := "ACME CORP"
    beneficiary_bic := "NWBKGB2L"
    beneficiary_iban := "GB29NWBK60161331926819"
    beneficiary_country := "GB"
    amount := 100
    currency := "EUR"
    execution_date := "2026-01-01" }

/-- The same request aimed at a sanctioned BIC. -/
def demoReqSanctioned : PaymentRequest :=
  { demoReqClean with beneficiary_bic := "BLCKUS33XXX" }

/-- The empty session. -/
def demoSess : Session := ⟨[], []⟩

/-- The draft payment row created from the sanctioned demo request. -/
def demoDraftSanctioned : Payment :=
  mkDraftPayment demoReqSanctioned "alice" "PID-1" "E2E-GEN" "T0"

/-- A 22-character `DE…` string containing `'!'`: it passes the country-code
and length checks, but `int()` inside the mod-97 computation blows up. -/
def c10Input : String := "DE8937040044053201300!"

/-- The sanctioned demo draft frozen by `_record_hit`. -/
def demoFrozenSanctioned : Payment :=
  { demoDraftSanctioned with status := "FROZEN", updated_at := some "T0" }

/-- An environment with no account rows. -/
def demoEnvEmpty : Env := ⟨fun _ => none⟩

/-- The hit dict produced for the sanctioned demo request. -/
def demoHitBic : SanctionsHitInfo :=
  ⟨"PID-1", "bic", "BLCKUS33XXX", "NEXUS_BLOCKED_CORP", "SDN", 1⟩

/-- The session holding the alert row for the sanctioned demo request. -/
def demoSessAlert : Session :=
  ⟨[⟨"PID-1", "bic", "BLCKUS33XXX", "NEXUS_BLOCKED_CORP", "SDN", 1, "T0"⟩], []⟩

/-- The clean demo draft payment. -/
def demoDraftClean : Payment :=
  mkDraftPayment demoReqClean "alice" "PID-1" "E2E-GEN" "T0"

/-- The screening decision as the spec words it: rules tried in the fixed
order (1) exact case-insensitive BIC match reported with similarity 1.0,
(2) exact case-insensitive country match reported with similarity 1.0,
(3) fuzzy name match, the first entry whose similarity meets or exceeds
the threshold reported with that score; the first match wins and no match
means no result. -/
def screenSpecHit (svc : SanctionsScreeningService) (p : Payment) :
    Option SanctionsHitInfo :=
  match svc.ofac_list.find? (fun e => pyUpper p.beneficiary_bic == pyUpper e.bic) with
  | some e => some ⟨p.id, "bic", p.beneficiary_bic, e.name, e.list_type, 1⟩
  | none =>
  match svc.ofac_list.find?
      (fun e => pyUpper p.beneficiary_country == pyUpper e.country) with
  | some e => some ⟨p.id, "country", p.beneficiary_country, e.name, e.list_type, 1⟩
  | none =>
  match svc.ofac_list.find? (fun e =>
      decide (svc.threshold ≤ sequenceMatcherRatio (pyUpper p.beneficiary_name)
        (pyUpper e.name))) with
  | some e =>
    some ⟨p.id, "name", p.beneficiary_name, e.name, e.list_type,
      sequenceMatcherRatio (pyUpper p.beneficiary_name) (pyUpper e.name)⟩
  | none => none

/-- Demo payment whose beneficiary name equals the watch-list entry. -/
def demoPayOleg : Payment :=
  mkDraftPayment { demoReqClean with beneficiary_name := "Oleg Deripaska" }
    "alice" "PID-2" "E2E-GEN" "T0"

/-- Demo payment with a one-character typo of the watch-list name. -/
def demoPayTypo : Payment :=
  mkDraftPayment { demoReqClean with beneficiary_name := "Oleg Derypaska" }
    "alice" "PID-3" "E2E-GEN" "T0"

/-- Demo payment with an unrelated beneficiary name. -/
def demoPayDiff : Payment :=
  mkDraftPayment { demoReqClean with beneficiary_name := "Totally Different Name Ltd" }
    "alice" "PID-4" "E2E-GEN" "T0"

/-- The clean demo payment in `PENDING_APPROVAL`, as persisted by
`initiate_payment`. -/
def demoPending : Payment :=
  { demoDraftClean with status := "PENDING_APPROVAL", updated_at := some "T0" }

/-- The payment row after checker `"bob"` approves the clean demo payment. -/
def demoApproved : Payment :=
  (approve_payment idealSig demoEnv {} demoSess demoPending "bob" 0 "T1").1.payment

end Kubera

-- Sanity checks on the validators.
example : Kubera.validate_iban_field "DE89370400440532013000" = .ok none := by decide
example : Kubera.validate_iban_field "DE00370400440532013000" ≠ .ok none := by decide
example : Kubera.validate_bic_field "NWBKGB2L" = none := by decide
example : Kubera.validate_bic_field "BLCKUS33XXX" = none := by decide
example : Kubera.validate_bic_field "NWBKGB0L" ≠ none := by decide
example : Kubera.advance_state "DRAFT" "PENDING_APPROVAL" = .ok "PENDING_APPROVAL" := by decide
example : Kubera.advance_state "DRAFT" "FROZEN"
    = .error (.invalidStateTransition "DRAFT" "FROZEN") := by decide
example : Kubera.sequenceMatcherRatio "OLEG DERIPASKA" "OLEG DERIPASKA" = 1 := by decide
example : Kubera.sequenceMatcherRatio "OLEG DERYPASKA" "OLEG DERIPASKA" = mkRat 13 14 := by
  decide
example : Kubera.sequenceMatcherRatio "ABCD" "BCDA" = mkRat 3 4 := by decide
example : mkRat 17 20 ≤ Kubera.sequenceMatcherRatio "OLEG DERYPASKA" "OLEG DERIPASKA" := by
  decide
example :
    ((Kubera.initiate_payment Kubera.demoEnv {} Kubera.demoSess Kubera.demoReqClean
      "alice" "PID-1" "E2E-GEN" "T0").1.payment?.map Kubera.Payment.status)
      = some "PENDING_APPROVAL" := by decide
example :
    ((Kubera.initiate_payment Kubera.demoEnv {} Kubera.demoSess Kubera.demoReqSanctioned
      "alice" "PID-1" "E2E-GEN" "T0").1.payment?.map Kubera.Payment.status)
      = some "FROZEN" := by decide

namespace Kubera

/-! ## General lemmas -/

/-- Addition through `ratAdd` agrees with rational addition. -/
theorem ratAdd_eq_add (a b : Rat) : ratAdd a b = a + b := by
  have ha : ((a.den : Rat)) ≠ 0 := Nat.cast_ne_zero.mpr a.den_nz
  have hb : ((b.den : Rat)) ≠ 0 := Nat.cast_ne_zero.mpr b.den_nz
  rw [ratAdd, Rat.mkRat_eq_div]
  conv_rhs => rw [← Rat.num_div_den a, ← Rat.num_div_den b, div_add_div _ _ ha hb]
  push_cast
  ring_nf

/-! ## Claim C8 — IBAN validation -/

/-- C8 (amended): after normalization (strip spaces, uppercase), the
validator accepts exactly the strings that are at least 4 characters long,
start with an alphabetic two-character country code, have the expected
per-country length when the table lists one, and pass the ISO 7064 mod-97
check; `"DE89370400440532013000"` validates and
`"DE00370400440532013000"` does not.  (The claim as stated omits the
minimum-length rejection; see the counterexample.) -/
theorem C8_iban_validation :
    (∀ s : String,
      validate_iban_field s = .ok none ↔
        (4 ≤ (normalizeIban s).length
          ∧ (strTake (normalizeIban s) 2).data.all Char.isAlpha = true
          ∧ (IBAN_LENGTHS.lookup (strTake (normalizeIban s) 2) = none
              ∨ IBAN_LENGTHS.lookup (strTake (normalizeIban s) 2)
                  = some (normalizeIban s).length)
          ∧ ibanMod97 (normalizeIban s) = some 1))
    ∧ validate_iban_field "DE89370400440532013000" = .ok none
    ∧ validate_iban_field "DE00370400440532013000" ≠ .ok none := by
  refine ⟨?_, by decide, by decide⟩
  intro s
  simp only [validate_iban_field]
  set n := normalizeIban s with hn
  by_cases h4 : n.length < 4
  · rw [if_pos h4]
    exact iff_of_false (by simp) (fun hc => absurd hc.1 (by omega))
  · rw [if_neg h4]
    by_cases halpha : (strTake n 2).data.all Char.isAlpha = true
    · rw [if_neg (not_not_intro halpha)]
      rcases hL : IBAN_LENGTHS.lookup (strTake n 2) with _ | e
      · rcases hM : ibanMod97 n with _ | r
        · exact iff_of_false (by simp) (fun hc => by simpa using hc.2.2.2)
        · by_cases hr : r = 1
          · subst hr
            exact iff_of_true (by simp) ⟨by omega, halpha, by simp, rfl⟩
          · refine iff_of_false (by simp [hr]) (fun hc => hr ?_)
            simpa using hc.2.2.2
      · dsimp only
        by_cases hlen : n.length = e
        · rw [if_neg (not_not_intro hlen)]
          rcases hM : ibanMod97 n with _ | r
          · exact iff_of_false (by simp) (fun hc => by simpa using hc.2.2.2)
          · by_cases hr : r = 1
            · subst hr
              exact iff_of_true (by simp)
                ⟨by omega, halpha, Or.inr (by rw [hlen]), rfl⟩
            · refine iff_of_false (by simp [hr]) (fun hc => hr ?_)
              simpa using hc.2.2.2
        · rw [if_pos (by simpa using hlen)]
          refine iff_of_false (by simp) (fun hc => ?_)
          rcases hc.2.2.1 with hc1 | hc1
          · simp at hc1
          · exact hlen (by simpa using hc1.symm)
    · rw [if_pos (by simpa using halpha)]
      exact iff_of_false (by simp) (fun hc => halpha hc.2.1)

/-- C8 counterexample: `"LZ"` has an alphabetic two-character country code,
no entry in the per-country length table (hence no length mismatch), and
its mod-97 numeral reduces to 1 — by the claim it should be accepted — yet
the validator rejects it (with the length guard the claim does not
mention). -/
theorem C8_counterexample :
    validate_iban_field "LZ" = .ok (some "IBAN too short")
    ∧ validate_iban_field "LZ" ≠ .ok none
    ∧ (strTake (normalizeIban "LZ") 2).data.all Char.isAlpha = true
    ∧ IBAN_LENGTHS.lookup (strTake (normalizeIban "LZ") 2) = none
    ∧ ibanMod97 (normalizeIban "LZ") = some 1 := by decide

/-! ## Claim C10 — the IBAN validator is not total -/

/-- C10: on `c10Input` the validator's country-code and length checks pass,
yet `_iban_mod97`'s `int()` conversion raises `ValueError` instead of
producing a validation-error string, and `initiate_payment` propagates that
raw `ValueError` rather than `InvalidIBAN`. -/
theorem C10_validator_not_total :
    (normalizeIban c10Input).length = 22
    ∧ (strTake (normalizeIban c10Input) 2).data.all Char.isAlpha = true
    ∧ IBAN_LENGTHS.lookup (strTake (normalizeIban c10Input) 2) = some 22
    ∧ ibanMod97 (normalizeIban c10Input) = none
    ∧ validate_iban_field c10Input = .error .valueError
    ∧ initiate_payment demoEnv {} demoSess
        { demoReqClean with debtor_iban := c10Input } "alice" "PID-1" "E2E-GEN" "T0"
      = (.errored .valueError, demoSess)
    ∧ InitOutcome.errored .valueError
        ≠ InitOutcome.errored (.invalidIBAN c10Input) := by decide

/-! ## Claim C1 — the allowed-transitions invariant -/

/-- C1 counterexample: during `initiate_payment` a sanctions hit mutates the
payment's status from `DRAFT` straight to `FROZEN` — `_record_hit` assigns
the status directly — even though `FROZEN` is not in the allowed-transitions
set of `DRAFT`, and no `InvalidStateTransition(DRAFT, FROZEN)` is raised. -/
theorem C1_counterexample :
    demoDraftSanctioned.status = "DRAFT"
    ∧ (initiate_payment demoEnv {} demoSess demoReqSanctioned
        "alice" "PID-1" "E2E-GEN" "T0").1.payment? = some demoFrozenSanctioned
    ∧ demoFrozenSanctioned.status = "FROZEN"
    ∧ ¬ ("FROZEN" ∈ allowedTargets "DRAFT")
    ∧ (initiate_payment demoEnv {} demoSess demoReqSanctioned
        "alice" "PID-1" "E2E-GEN" "T0").1
      ≠ .errored (.invalidStateTransition "DRAFT" "FROZEN") := by decide

/-- C1 (amended): `advance_state` applies a transition exactly when the
target is in the allowed-transitions set of the current status and raises
`InvalidStateTransition(current, target)` otherwise; every status mutation
of the service goes through it **except** `_record_hit`, which on a
sanctions hit assigns `FROZEN` directly, bypassing the table (so a hit
during `initiate_payment` moves `DRAFT → FROZEN` without any
`InvalidStateTransition`). -/
theorem C1_transitions_amended :
    (∀ current target : String,
      (advance_state current target = .ok target ↔ target ∈ allowedTargets current)
      ∧ (target ∉ allowedTargets current →
        advance_state current target = .error (.invalidStateTransition current target)))
    ∧ (∀ (svc : SanctionsScreeningService) (now : String) (sess : Session)
        (p : Payment) (hit : SanctionsHitInfo) (sess1 : Session) (p1 : Payment),
        svc.screen now sess p = (some hit, sess1, p1) → p1.status = "FROZEN") := by
  constructor
  · intro c t
    refine ⟨⟨fun h => ?_, fun hmem => by simp [advance_state, hmem]⟩,
      fun hmem => by simp [advance_state, hmem]⟩
    by_contra hmem
    simp [advance_state, hmem] at h
  · intro svc now sess p hit sess1 p1 h
    unfold SanctionsScreeningService.screen at h
    split at h
    · simp only [recordHit, Prod.mk.injEq] at h
      obtain ⟨-, -, hP⟩ := h
      subst hP
      rfl
    · split at h
      · simp only [recordHit, Prod.mk.injEq] at h
        obtain ⟨-, -, hP⟩ := h
        subst hP
        rfl
      · split at h
        · simp only [recordHit, Prod.mk.injEq] at h
          obtain ⟨-, -, hP⟩ := h
          subst hP
          rfl
        · simp at h

/-- Witness for C1 (amended), at concrete inputs. -/
theorem C1_witness :
    advance_state "DRAFT" "PENDING_APPROVAL" = .ok "PENDING_APPROVAL"
    ∧ advance_state "DRAFT" "FROZEN"
        = .error (.invalidStateTransition "DRAFT" "FROZEN")
    ∧ demoFrozenSanctioned.status = "FROZEN" :=
  ⟨(C1_transitions_amended.1 "DRAFT" "PENDING_APPROVAL").1.mpr (by decide),
    (C1_transitions_amended.1 "DRAFT" "FROZEN").2 (by decide),
    C1_transitions_amended.2 {} "T0" demoSess demoDraftSanctioned
      ⟨"PID-1", "bic", "BLCKUS33XXX", "NEXUS_BLOCKED_CORP", "SDN", 1⟩
      ⟨[⟨"PID-1", "bic", "BLCKUS33XXX", "NEXUS_BLOCKED_CORP", "SDN", 1, "T0"⟩], []⟩
      demoFrozenSanctioned (by decide)⟩

/-! ## Structure lemmas about `screen` and `initiate_payment` -/

/-- A positive screening result freezes exactly the screened payment row and
appends exactly one alert row for it. -/
theorem screen_hit_eq (svc : SanctionsScreeningService) (now : String)
    (sess : Session) (p : Payment) (hit : SanctionsHitInfo) (sess1 : Session)
    (p1 : Payment) (h : svc.screen now sess p = (some hit, sess1, p1)) :
    p1 = { p with status := "FROZEN", updated_at := some now }
    ∧ ∃ a : SanctionsAlert,
        sess1 = { sess with alerts := sess.alerts ++ [a] } ∧ a.payment_id = p.id := by
  unfold SanctionsScreeningService.screen at h
  split at h
  · simp only [recordHit, Prod.mk.injEq] at h
    exact ⟨h.2.2.symm, _, h.2.1.symm, rfl⟩
  · split at h
    · simp only [recordHit, Prod.mk.injEq] at h
      exact ⟨h.2.2.symm, _, h.2.1.symm, rfl⟩
    · split at h
      · simp only [recordHit, Prod.mk.injEq] at h
        exact ⟨h.2.2.symm, _, h.2.1.symm, rfl⟩
      · simp at h

/-- A negative screening result changes nothing. -/
theorem screen_none_eq (svc : SanctionsScreeningService) (now : String)
    (sess : Session) (p : Payment) (sess1 : Session) (p1 : Payment)
    (h : svc.screen now sess p = (none, sess1, p1)) : sess1 = sess ∧ p1 = p := by
  unfold SanctionsScreeningService.screen at h
  split at h
  · simp [recordHit] at h
  · split at h
    · simp [recordHit] at h
    · split at h
      · simp [recordHit] at h
      · simp only [Prod.mk.injEq] at h
        exact ⟨h.2.1.symm, h.2.2.symm⟩

/-- Behavior of `initiate_payment` under passing field validation and funds check, when
screening hits: the frozen row is persisted, the hit audit entry recorded,
and `SanctionsHitError` raised with the hit's fields. -/
theorem initiate_payment_hit (env : Env) (svc : SanctionsScreeningService)
    (sess : Session) (req : PaymentRequest) (maker nid e2e now : String)
    (hit : SanctionsHitInfo) (sess1 : Session) (p1 : Payment)
    (h1 : validate_iban_field req.debtor_iban = .ok none)
    (h2 : validate_iban_field req.beneficiary_iban = .ok none)
    (h3 : validate_bic_field req.beneficiary_bic = none)
    (hf : fundsShortfall env req.debtor_account_id req.amount = none)
    (hs : svc.screen now sess (mkDraftPayment req maker nid e2e now)
      = (some hit, sess1, p1)) :
    initiate_payment env svc sess req maker nid e2e now
      = (.frozenHit (.sanctionsHit hit.payment_id hit.matched_field hit.matched_value
          hit.list_entry_name hit.list_type hit.similarity_score) p1,
        auditLog sess1 p1.id "SYSTEM" "SANCTIONS_HIT" (some (hitDetails hit)) now) := by
  unfold initiate_payment
  rw [h1, h2, h3, hf]
  dsimp only
  rw [hs]

/-- Behavior of `initiate_payment` under passing field validation and funds check, when
screening is clean: the draft transitions `DRAFT → PENDING_APPROVAL`
(through `advance_state`) and the initiation audit entry is recorded. -/
theorem initiate_payment_clean (env : Env) (svc : SanctionsScreeningService)
    (sess : Session) (req : PaymentRequest) (maker nid e2e now : String)
    (sess1 : Session) (p1 : Payment)
    (h1 : validate_iban_field req.debtor_iban = .ok none)
    (h2 : validate_iban_field req.beneficiary_iban = .ok none)
    (h3 : validate_bic_field req.beneficiary_bic = none)
    (hf : fundsShortfall env req.debtor_account_id req.amount = none)
    (hs : svc.screen now sess (mkDraftPayment req maker nid e2e now)
      = (none, sess1, p1)) :
    initiate_payment env svc sess req maker nid e2e now
      = (.ok { p1 with status := "PENDING_APPROVAL", updated_at := some now },
        auditLog sess1 p1.id maker "PAYMENT_INITIATED" none now) := by
  unfold initiate_payment
  rw [h1, h2, h3, hf]
  dsimp only
  rw [hs]
  rfl

/-- Behavior of `initiate_payment` when the funds check fails. -/
theorem initiate_payment_funds_err (env : Env) (svc : SanctionsScreeningService)
    (sess : Session) (req : PaymentRequest) (maker nid e2e now : String)
    (e : PyError)
    (h1 : validate_iban_field req.debtor_iban = .ok none)
    (h2 : validate_iban_field req.beneficiary_iban = .ok none)
    (h3 : validate_bic_field req.beneficiary_bic = none)
    (hf : fundsShortfall env req.debtor_account_id req.amount = some e) :
    initiate_payment env svc sess req maker nid e2e now = (.errored e, sess) := by
  unfold initiate_payment
  rw [h1, h2, h3, hf]

/-! ## Claim C6 — the funds-sufficiency check -/

/-- C6: for a request whose debtor account exists (and whose fields pass
the format validation that precedes the funds check), `initiate_payment`
raises `InsufficientFunds{available, requested}` — with
`available = latest value-date balance + overdraft limit`, in exact decimal
arithmetic — if and only if the requested amount strictly exceeds that sum. -/
theorem C6_funds_check (env : Env) (svc : SanctionsScreeningService)
    (sess : Session) (req : PaymentRequest) (maker nid e2e now : String)
    (acct : BankAccount)
    (h1 : validate_iban_field req.debtor_iban = .ok none)
    (h2 : validate_iban_field req.beneficiary_iban = .ok none)
    (h3 : validate_bic_field req.beneficiary_bic = none)
    (hacct : env.accounts req.debtor_account_id = some acct) :
    initiate_payment env svc sess req maker nid e2e now
        = (.errored (.insufficientFunds
            (acct.latest_value_date_balance.getD 0 + acct.overdraft_limit)
            req.amount), sess)
      ↔ acct.latest_value_date_balance.getD 0 + acct.overdraft_limit < req.amount := by
  have havail :
      ratAdd (acct.latest_value_date_balance.getD 0) acct.overdraft_limit
        = acct.latest_value_date_balance.getD 0 + acct.overdraft_limit :=
    ratAdd_eq_add _ _
  constructor
  · intro h
    by_contra hlt
    have hf : fundsShortfall env req.debtor_account_id req.amount = none := by
      unfold fundsShortfall
      rw [hacct]
      simp only [havail]
      rw [if_neg hlt]
    rcases hscr : svc.screen now sess (mkDraftPayment req maker nid e2e now) with
      ⟨hres, sess1, p1⟩
    cases hres with
    | some hit =>
      rw [initiate_payment_hit env svc sess req maker nid e2e now hit sess1 p1
        h1 h2 h3 hf hscr] at h
      exact absurd (congrArg Prod.fst h) (by simp)
    | none =>
      rw [initiate_payment_clean env svc sess req maker nid e2e now sess1 p1
        h1 h2 h3 hf hscr] at h
      exact absurd (congrArg Prod.fst h) (by simp)
  · intro hlt
    have hf : fundsShortfall env req.debtor_account_id req.amount
        = some (.insufficientFunds
            (acct.latest_value_date_balance.getD 0 + acct.overdraft_limit) req.amount) := by
      unfold fundsShortfall
      rw [hacct]
      simp only [havail]
      rw [if_pos hlt]
    exact initiate_payment_funds_err env svc sess req maker nid e2e now _ h1 h2 h3 hf

/-- Witness for C6: against 100 balance + 50 overdraft, a request for
150.01 raises `InsufficientFunds{150, 150.01}` and a request for exactly
150 does not raise `InsufficientFunds`. -/
theorem C6_witness :
    initiate_payment demoEnv {} demoSess { demoReqClean with amount := mkRat 15001 100 }
        "alice" "PID-1" "E2E-GEN" "T0"
      = (.errored (.insufficientFunds ((some (100 : Rat)).getD 0 + 50) (mkRat 15001 100)),
        demoSess)
    ∧ initiate_payment demoEnv {} demoSess { demoReqClean with amount := 150 }
        "alice" "PID-1" "E2E-GEN" "T0"
      ≠ (.errored (.insufficientFunds ((some (100 : Rat)).getD 0 + 50) 150), demoSess) :=
  ⟨(C6_funds_check demoEnv {} demoSess { demoReqClean with amount := mkRat 15001 100 }
      "alice" "PID-1" "E2E-GEN" "T0" ⟨50, some 100⟩
      (by decide) (by decide) (by decide) (by decide)).mpr
      (by rw [Rat.mkRat_eq_div]; norm_num),
    fun h =>
      absurd ((C6_funds_check demoEnv {} demoSess { demoReqClean with amount := 150 }
        "alice" "PID-1" "E2E-GEN" "T0" ⟨50, some 100⟩
        (by decide) (by decide) (by decide) (by decide)).mp h)
        (by norm_num)⟩

/-! ## Claim C9 — a missing debtor account skips the funds check -/

/-- C9: when no `BankAccount` row matches the request's
`debtor_account_id` (and the fields pass format validation),
`initiate_payment` performs no funds check: whatever the amount, it never
raises `InsufficientFunds` and no account-not-found error exists; it
proceeds to create and screen the payment, ending in a sanctions freeze or
in `PENDING_APPROVAL`. -/
theorem C9_no_account_skips_funds (env : Env) (svc : SanctionsScreeningService)
    (sess : Session) (req : PaymentRequest) (maker nid e2e now : String)
    (h1 : validate_iban_field req.debtor_iban = .ok none)
    (h2 : validate_iban_field req.beneficiary_iban = .ok none)
    (h3 : validate_bic_field req.beneficiary_bic = none)
    (hacct : env.accounts req.debtor_account_id = none) :
    ((∃ e p, (initiate_payment env svc sess req maker nid e2e now).1 = .frozenHit e p)
      ∨ (∃ p, (initiate_payment env svc sess req maker nid e2e now).1 = .ok p))
    ∧ (∀ av rq : Rat,
        (initiate_payment env svc sess req maker nid e2e now).1
          ≠ .errored (.insufficientFunds av rq))
    ∧ (∀ aid : String,
        (initiate_payment env svc sess req maker nid e2e now).1
          ≠ .errored (.accountNotFound aid)) := by
  have hf : fundsShortfall env req.debtor_account_id req.amount = none := by
    unfold fundsShortfall
    rw [hacct]
  rcases hscr : svc.screen now sess (mkDraftPayment req maker nid e2e now) with
    ⟨hres, sess1, p1⟩
  cases hres with
  | some hit =>
    rw [initiate_payment_hit env svc sess req maker nid e2e now hit sess1 p1
      h1 h2 h3 hf hscr]
    exact ⟨Or.inl ⟨_, _, rfl⟩, fun av rq => by simp, fun aid => by simp⟩
  | none =>
    rw [initiate_payment_clean env svc sess req maker nid e2e now sess1 p1
      h1 h2 h3 hf hscr]
    exact ⟨Or.inr ⟨_, rfl⟩, fun av rq => by simp, fun aid => by simp⟩

/-- Witness for C9: a billion-unit request against a nonexistent account
sails through the funds stage. -/
theorem C9_witness :
    (initiate_payment demoEnvEmpty {} demoSess
        { demoReqClean with debtor_account_id := "NO-SUCH-ACCOUNT",
                            amount := 1000000000 }
        "alice" "PID-1" "E2E-GEN" "T0").1
      ≠ .errored (.insufficientFunds 0 1000000000) :=
  (C9_no_account_skips_funds demoEnvEmpty {} demoSess
    { demoReqClean with debtor_account_id := "NO-SUCH-ACCOUNT", amount := 1000000000 }
    "alice" "PID-1" "E2E-GEN" "T0"
    (by decide) (by decide) (by decide) (by decide)).2.1 0 1000000000

/-! ## Claim C4 — sanctions screening during `initiate_payment` -/

/-- C4: for a request that reaches screening inside `initiate_payment`, a
match leaves the created payment `FROZEN` (never `PENDING_APPROVAL`),
inserts one `SanctionsAlert` row for it, and raises `SanctionsHit` carrying
the matched field, value, entry, list type and similarity score; a clean
result transitions the draft `DRAFT → PENDING_APPROVAL` and records an
audit entry. -/
theorem C4_initiate_screening (env : Env) (svc : SanctionsScreeningService)
    (sess : Session) (req : PaymentRequest) (maker nid e2e now : String)
    (h1 : validate_iban_field req.debtor_iban = .ok none)
    (h2 : validate_iban_field req.beneficiary_iban = .ok none)
    (h3 : validate_bic_field req.beneficiary_bic = none)
    (hf : fundsShortfall env req.debtor_account_id req.amount = none) :
    (∀ (hit : SanctionsHitInfo) (sess1 : Session) (p1 : Payment),
      svc.screen now sess (mkDraftPayment req maker nid e2e now) = (some hit, sess1, p1) →
      initiate_payment env svc sess req maker nid e2e now
          = (.frozenHit (.sanctionsHit hit.payment_id hit.matched_field hit.matched_value
              hit.list_entry_name hit.list_type hit.similarity_score) p1,
            auditLog sess1 p1.id "SYSTEM" "SANCTIONS_HIT" (some (hitDetails hit)) now)
        ∧ p1.status = "FROZEN"
        ∧ p1.status ≠ "PENDING_APPROVAL"
        ∧ ∃ a : SanctionsAlert,
            sess1 = { sess with alerts := sess.alerts ++ [a] }
            ∧ a.payment_id = (mkDraftPayment req maker nid e2e now).id)
    ∧ (∀ (sess1 : Session) (p1 : Payment),
      svc.screen now sess (mkDraftPayment req maker nid e2e now) = (none, sess1, p1) →
      initiate_payment env svc sess req maker nid e2e now
          = (.ok { p1 with status := "PENDING_APPROVAL", updated_at := some now },
            auditLog sess1 p1.id maker "PAYMENT_INITIATED" none now)
        ∧ p1.status = "DRAFT"
        ∧ (auditLog sess1 p1.id maker "PAYMENT_INITIATED" none now).audits
            = sess1.audits
              ++ [⟨some p1.id, some maker, "PAYMENT_INITIATED", none, now⟩]) := by
  constructor
  · intro hit sess1 p1 hscr
    obtain ⟨hp1, a, hsess, hpid⟩ :=
      screen_hit_eq svc now sess (mkDraftPayment req maker nid e2e now) hit sess1 p1 hscr
    refine ⟨initiate_payment_hit env svc sess req maker nid e2e now hit sess1 p1
      h1 h2 h3 hf hscr, ?_, ?_, a, hsess, hpid⟩
    · rw [hp1]
    · rw [hp1]
      simp
  · intro sess1 p1 hscr
    obtain ⟨hsess, hp1⟩ :=
      screen_none_eq svc now sess (mkDraftPayment req maker nid e2e now) sess1 p1 hscr
    refine ⟨initiate_payment_clean env svc sess req maker nid e2e now sess1 p1
      h1 h2 h3 hf hscr, ?_, rfl⟩
    rw [hp1]
    rfl

/-- Witness for C4, at the sanctioned and the clean demo requests. -/
theorem C4_witness :
    initiate_payment demoEnv {} demoSess demoReqSanctioned "alice" "PID-1" "E2E-GEN" "T0"
      = (.frozenHit (.sanctionsHit "PID-1" "bic" "BLCKUS33XXX" "NEXUS_BLOCKED_CORP" "SDN" 1)
          demoFrozenSanctioned,
        auditLog demoSessAlert "PID-1" "SYSTEM" "SANCTIONS_HIT"
          (some (hitDetails demoHitBic)) "T0")
    ∧ initiate_payment demoEnv {} demoSess demoReqClean "alice" "PID-1" "E2E-GEN" "T0"
      = (.ok { demoDraftClean with status := "PENDING_APPROVAL", updated_at := some "T0" },
        auditLog demoSess "PID-1" "alice" "PAYMENT_INITIATED" none "T0") :=
  ⟨((C4_initiate_screening demoEnv {} demoSess demoReqSanctioned "alice" "PID-1" "E2E-GEN"
      "T0" (by decide) (by decide) (by decide) (by decide)).1
      demoHitBic demoSessAlert demoFrozenSanctioned (by decide)).1,
    ((C4_initiate_screening demoEnv {} demoSess demoReqClean "alice" "PID-1" "E2E-GEN"
      "T0" (by decide) (by decide) (by decide) (by decide)).2
      demoSess demoDraftClean (by decide)).1⟩

/-! ## Claim C5 — the screening rules and their order -/

/-- C5: `screen` decides exactly as the spec's ordered first-match-wins
rules (`screenSpecHit`); when no rule matches it returns no result and
creates no alert; the similarity score of identical names is 1.0; and on
the spec's fixtures the exact name is blocked with score 1.0, the
one-character typo with score 13/14 ≥ 0.85, and the unrelated name passes
untouched. -/
theorem C5_screen_order :
    (∀ (svc : SanctionsScreeningService) (now : String) (sess : Session) (p : Payment),
      (svc.screen now sess p).1 = screenSpecHit svc p)
    ∧ (∀ (svc : SanctionsScreeningService) (now : String) (sess : Session) (p : Payment),
      screenSpecHit svc p = none → svc.screen now sess p = (none, sess, p))
    ∧ sequenceMatcherRatio (pyUpper "Oleg Deripaska") (pyUpper "Oleg Deripaska") = 1
    ∧ (({} : SanctionsScreeningService).screen "T0" demoSess demoPayOleg).1
        = some ⟨"PID-2", "name", "Oleg Deripaska", "Oleg Deripaska", "SDN", 1⟩
    ∧ (({} : SanctionsScreeningService).screen "T0" demoSess demoPayTypo).1
        = some ⟨"PID-3", "name", "Oleg Derypaska", "Oleg Deripaska", "SDN", mkRat 13 14⟩
    ∧ mkRat 17 20 ≤ mkRat 13 14
    ∧ ({} : SanctionsScreeningService).screen "T0" demoSess demoPayDiff
        = (none, demoSess, demoPayDiff) := by
  have hA : ∀ (svc : SanctionsScreeningService) (now : String) (sess : Session)
      (p : Payment), (svc.screen now sess p).1 = screenSpecHit svc p := by
    intro svc now sess p
    unfold SanctionsScreeningService.screen screenSpecHit
    rcases hf1 : svc.ofac_list.find?
        (fun e => pyUpper p.beneficiary_bic == pyUpper e.bic) with _ | e1
    · rcases hf2 : svc.ofac_list.find?
          (fun e => pyUpper p.beneficiary_country == pyUpper e.country) with _ | e2
      · rcases hf3 : svc.ofac_list.find? (fun e =>
            decide (svc.threshold ≤ sequenceMatcherRatio (pyUpper p.beneficiary_name)
              (pyUpper e.name))) with _ | e3
        · simp only [hf1, hf2, hf3]
        · simp only [hf1, hf2, hf3, recordHit]
      · simp only [hf1, hf2, recordHit]
    · simp only [hf1, recordHit]
  refine ⟨hA, ?_, by decide, by decide, by decide, by decide, by decide⟩
  intro svc now sess p hnone
  rcases hs : svc.screen now sess p with ⟨r, s1, p1⟩
  have hr : r = none := by
    have := hA svc now sess p
    rw [hs, hnone] at this
    exact this
  subst hr
  obtain ⟨h1, h2⟩ := screen_none_eq svc now sess p s1 p1 hs
  rw [h1, h2]

/-- Witness for C5, at the exact-name and unrelated-name demo payments. -/
theorem C5_witness :
    (({} : SanctionsScreeningService).screen "T0" demoSess demoPayOleg).1
        = screenSpecHit {} demoPayOleg
    ∧ ({} : SanctionsScreeningService).screen "T0" demoSess demoPayDiff
        = (none, demoSess, demoPayDiff) :=
  ⟨C5_screen_order.1 {} "T0" demoSess demoPayOleg,
    C5_screen_order.2.1 {} "T0" demoSess demoPayDiff (by decide)⟩

/-! ## Claim C3 — the self-approval hard block -/

/-- C3: whatever the payment's status (any terminal status included) and
environment, an approval attempt by the payment's own maker returns
`SelfApproval`, appends the `SELF_APPROVAL_ATTEMPT` audit entry, and leaves
the payment row — status and every approval field — untouched; the
self-approval check precedes the status check, so the caller never sees
`InvalidStateTransition`. -/
theorem C3_self_approval (M : SigModel) (env : Env)
    (svc : SanctionsScreeningService) (sess : Session) (p : Payment)
    (priv : Nat) (now : String) (checker : String)
    (h : checker = p.maker_user_id) :
    approve_payment M env svc sess p checker priv now
        = (.errored (.selfApproval checker) p,
          auditLog sess p.id checker "SELF_APPROVAL_ATTEMPT" none now)
    ∧ (∀ c t : String,
        (approve_payment M env svc sess p checker priv now).1
          ≠ .errored (.invalidStateTransition c t) p) := by
  have heq : approve_payment M env svc sess p checker priv now
      = (.errored (.selfApproval checker) p,
        auditLog sess p.id checker "SELF_APPROVAL_ATTEMPT" none now) := by
    unfold approve_payment
    rw [if_pos h]
  refine ⟨heq, fun c t => ?_⟩
  rw [heq]
  simp

/-- Witness for C3: the maker of the frozen (terminal-status) demo payment
tries to approve it. -/
theorem C3_witness :
    approve_payment idealSig demoEnv {} demoSess demoFrozenSanctioned "alice" 0 "T1"
      = (.errored (.selfApproval "alice") demoFrozenSanctioned,
        auditLog demoSess demoFrozenSanctioned.id "alice"
          "SELF_APPROVAL_ATTEMPT" none "T1") :=
  (C3_self_approval idealSig demoEnv {} demoSess demoFrozenSanctioned 0 "T1" "alice"
    (by decide)).1

/-! ## Claim C7 — the signature protocol -/

/-- Strings with equal character lists are equal. -/
theorem stringDataInj {s t : String} (h : s.data = t.data) : s = t := by
  cases s
  cases t
  exact congrArg String.mk h

/-- Splitting at the first `'|'` is unambiguous when neither prefix
contains `'|'`. -/
theorem bar_split (a : List Char) :
    ∀ (b t u : List Char), '|' ∉ a → '|' ∉ b →
      a ++ '|' :: t = b ++ '|' :: u → a = b ∧ t = u := by
  induction a with
  | nil =>
    intro b t u _ hb h
    cases b with
    | nil => simpa using h
    | cons d bs =>
      simp only [List.nil_append, List.cons_append] at h
      injection h with h1 _
      exact absurd (h1 ▸ List.mem_cons_self d bs) hb
  | cons c as ih =>
    intro b t u ha hb h
    cases b with
    | nil =>
      simp only [List.nil_append, List.cons_append] at h
      injection h with h1 _
      exact absurd (h1 ▸ List.mem_cons_self c as) ha
    | cons d bs =>
      simp only [List.cons_append] at h
      injection h with h1 h2
      obtain ⟨h3, h4⟩ := ih bs t u (fun hm => ha (List.mem_cons_of_mem c hm))
        (fun hm => hb (List.mem_cons_of_mem d hm)) h2
      exact ⟨by rw [h1, h3], h4⟩

/-- The canonical payload determines amount and timestamp when the amount
renderings contain no `'|'` (which decimal renderings never do). -/
theorem approvalPayload_inj (pid amt ts amt2 ts2 : String)
    (h1 : '|' ∉ amt.data) (h2 : '|' ∉ amt2.data)
    (h : approvalPayload pid amt2 ts2 = approvalPayload pid amt ts) :
    amt2 = amt ∧ ts2 = ts := by
  have hd := congrArg String.data h
  simp only [approvalPayload, String.data_append, List.append_assoc] at hd
  have hd2 := List.append_cancel_left hd
  have hd3 := List.append_cancel_left hd2
  simp only [List.singleton_append] at hd3
  obtain ⟨h5, h6⟩ := bar_split amt2.data amt.data ts2.data ts.data h2 h1 hd3
  exact ⟨stringDataInj h5, stringDataInj h6⟩

/-- C7: for any signature scheme meeting the library contract, verification
of a signature produced by `sign_approval` succeeds with the same
`payment_id`, amount and timestamp and the matching key pair; it fails with
`InvalidSignature{payment_id}` for a different key pair, for any change of
amount or timestamp, and for any corrupted signature bytes; and every
failure is reported as the same `InvalidSignature{payment_id}`, never
revealing which component mismatched. -/
theorem C7_signature_protocol (M : SigModel) (pid amt ts amt2 ts2 : String)
    (k k2 : Nat) :
    verify_approval_signature M pid amt ts
        (M.b64e (sign_approval M pid amt ts k)) (M.pem (M.pub k)) = .ok true
    ∧ (M.pub k2 ≠ M.pub k →
        verify_approval_signature M pid amt ts
          (M.b64e (sign_approval M pid amt ts k)) (M.pem (M.pub k2))
          = .error (.invalidSignature pid))
    ∧ ('|' ∉ amt.data → '|' ∉ amt2.data → (amt2, ts2) ≠ (amt, ts) →
        verify_approval_signature M pid amt2 ts2
          (M.b64e (sign_approval M pid amt ts k)) (M.pem (M.pub k))
          = .error (.invalidSignature pid))
    ∧ (∀ sb : String, M.b64d sb ≠ M.sign k (approvalPayload pid amt ts) →
        verify_approval_signature M pid amt ts sb (M.pem (M.pub k))
          = .error (.invalidSignature pid))
    ∧ (∀ sb pm : String,
        verify_approval_signature M pid amt ts sb pm = .ok true
        ∨ verify_approval_signature M pid amt ts sb pm
            = .error (.invalidSignature pid)) := by
  refine ⟨?_, ?_, ?_, ?_, ?_⟩
  · unfold verify_approval_signature sign_approval
    rw [M.load_pem, M.b64_rt, if_pos (M.correct k (approvalPayload pid amt ts))]
  · intro hne
    unfold verify_approval_signature sign_approval
    rw [M.load_pem, M.b64_rt]
    rw [if_neg ?_]
    intro hv
    obtain ⟨k3, hp3, hs3⟩ := M.complete _ _ _ hv
    obtain ⟨hpk, -⟩ := M.signInj k k3 _ _ hs3
    exact hne (hp3 ▸ hpk.symm)
  · intro hb1 hb2 hne
    unfold verify_approval_signature sign_approval
    rw [M.load_pem, M.b64_rt]
    rw [if_neg ?_]
    intro hv
    obtain ⟨k3, hp3, hs3⟩ := M.complete _ _ _ hv
    obtain ⟨-, hpl⟩ := M.signInj k k3 _ _ hs3
    obtain ⟨ha, ht⟩ := approvalPayload_inj pid amt ts amt2 ts2 hb1 hb2 hpl.symm
    exact hne (by rw [ha, ht])
  · intro sb hcorrupt
    unfold verify_approval_signature
    rw [M.load_pem]
    rw [if_neg ?_]
    intro hv
    obtain ⟨k3, hp3, hs3⟩ := M.complete _ _ _ hv
    have hdd : M.sign k3 (approvalPayload pid amt ts)
        = M.sign k (approvalPayload pid amt ts) := M.signDet k3 k _ hp3
    exact hcorrupt (hs3.trans hdd)
  · intro sb pm
    unfold verify_approval_signature
    by_cases hc : M.verifyOK (M.loadPem pm) (M.b64d sb) (approvalPayload pid amt ts) = true
    · exact Or.inl (by rw [if_pos hc])
    · exact Or.inr (by rw [if_neg hc])

/-- Witness for C7, at the ideal scheme and concrete strings. -/
theorem C7_witness :
    verify_approval_signature idealSig "PID-1" "100" "T1"
        (idealSig.b64e (sign_approval idealSig "PID-1" "100" "T1" 0))
        (idealSig.pem (idealSig.pub 0)) = .ok true
    ∧ verify_approval_signature idealSig "PID-1" "100" "T1"
        (idealSig.b64e (sign_approval idealSig "PID-1" "100" "T1" 0))
        (idealSig.pem (idealSig.pub 1)) = .error (.invalidSignature "PID-1")
    ∧ verify_approval_signature idealSig "PID-1" "999" "T1"
        (idealSig.b64e (sign_approval idealSig "PID-1" "100" "T1" 0))
        (idealSig.pem (idealSig.pub 0)) = .error (.invalidSignature "PID-1")
    ∧ verify_approval_signature idealSig "PID-1" "100" "T1" "garbage"
        (idealSig.pem (idealSig.pub 0)) = .error (.invalidSignature "PID-1") :=
  ⟨(C7_signature_protocol idealSig "PID-1" "100" "T1" "999" "T1" 0 1).1,
    (C7_signature_protocol idealSig "PID-1" "100" "T1" "999" "T1" 0 1).2.1 (by decide),
    (C7_signature_protocol idealSig "PID-1" "100" "T1" "999" "T1" 0 1).2.2.1
      (by decide) (by decide) (by decide),
    (C7_signature_protocol idealSig "PID-1" "100" "T1" "999" "T1" 0 1).2.2.2.1
      "garbage" (by decide)⟩

/-! ## Claim C2 — the four-eyes invariant on reachable states -/

/-- A self-approval attempt leaves the payment row unchanged. -/
theorem approve_self_payment (M : SigModel) (env : Env)
    (svc : SanctionsScreeningService) (sess : Session) (p : Payment)
    (checker : String) (priv : Nat) (now : String)
    (h : checker = p.maker_user_id) :
    (approve_payment M env svc sess p checker priv now).1.payment = p := by
  unfold approve_payment
  rw [if_pos h]
  rfl

/-- An approval attempt on a payment that is not `PENDING_APPROVAL` leaves
the payment row unchanged. -/
theorem approve_badstatus_payment (M : SigModel) (env : Env)
    (svc : SanctionsScreeningService) (sess : Session) (p : Payment)
    (checker : String) (priv : Nat) (now : String)
    (h1 : ¬ checker = p.maker_user_id) (h2 : p.status ≠ "PENDING_APPROVAL") :
    (approve_payment M env svc sess p checker priv now).1.payment = p := by
  unfold approve_payment
  rw [if_neg h1, if_pos h2]
  rfl

/-- On the main approval path the resulting payment row carries the
checker's id (distinct from the maker by the guard) and the maker id is
unchanged, whatever screening and the funds re-check do afterwards. -/
theorem approve_main_checker (M : SigModel) (env : Env)
    (svc : SanctionsScreeningService) (sess : Session) (p : Payment)
    (checker : String) (priv : Nat) (now : String)
    (h1 : ¬ checker = p.maker_user_id) (h2 : p.status = "PENDING_APPROVAL") :
    (approve_payment M env svc sess p checker priv now).1.payment.checker_user_id
        = some checker
    ∧ (approve_payment M env svc sess p checker priv now).1.payment.maker_user_id
        = p.maker_user_id := by
  unfold approve_payment
  rw [if_neg h1, if_neg (not_not_intro h2)]
  simp only
    [show advance_state "PENDING_APPROVAL" "APPROVED" = Except.ok "APPROVED" from rfl,
     show advance_state "APPROVED" "SANCTIONS_REVIEW"
        = Except.ok "SANCTIONS_REVIEW" from rfl,
     show advance_state "SANCTIONS_REVIEW" "FUNDS_CHECKED"
        = Except.ok "FUNDS_CHECKED" from rfl,
     show advance_state "FUNDS_CHECKED" "INSUFFICIENT_FUNDS"
        = Except.ok "INSUFFICIENT_FUNDS" from rfl]
  split
  · rename_i hit s1 p3 heq
    obtain ⟨hp3, -⟩ := screen_hit_eq svc now sess _ hit s1 p3 heq
    rw [hp3]
    exact ⟨rfl, rfl⟩
  · rename_i s1 p3 heq
    obtain ⟨-, hp3⟩ := screen_none_eq svc now sess _ s1 p3 heq
    rw [hp3]
    split
    · exact ⟨rfl, rfl⟩
    · exact ⟨rfl, rfl⟩

/-- A payment row created by a successful `initiate_payment` has no checker. -/
theorem initiate_ok_checker (env : Env) (svc : SanctionsScreeningService)
    (sess : Session) (req : PaymentRequest) (maker nid e2e now : String)
    (p : Payment) (sess1 : Session)
    (h : initiate_payment env svc sess req maker nid e2e now = (.ok p, sess1)) :
    p.checker_user_id = none := by
  unfold initiate_payment at h
  split at h
  · simp at h
  · simp at h
  · split at h
    · simp at h
    · simp at h
    · split at h
      · simp at h
      · split at h
        · simp at h
        · dsimp only at h
          rcases hscr : svc.screen now sess (mkDraftPayment req maker nid e2e now)
            with ⟨r, sx, p1⟩
          rw [hscr] at h
          cases r with
          | some hit => simp at h
          | none =>
            rw [show advance_state "DRAFT" "PENDING_APPROVAL"
              = Except.ok "PENDING_APPROVAL" from rfl] at h
            simp only [Prod.mk.injEq, InitOutcome.ok.injEq] at h
            obtain ⟨hp, -⟩ := h
            rw [← hp]
            obtain ⟨-, hp1⟩ := screen_none_eq svc now sess _ sx p1 hscr
            rw [hp1]
            rfl

/-- A payment row frozen during `initiate_payment` has no checker. -/
theorem initiate_frozen_checker (env : Env) (svc : SanctionsScreeningService)
    (sess : Session) (req : PaymentRequest) (maker nid e2e now : String)
    (e : PyError) (p : Payment) (sess1 : Session)
    (h : initiate_payment env svc sess req maker nid e2e now
      = (.frozenHit e p, sess1)) :
    p.checker_user_id = none := by
  unfold initiate_payment at h
  split at h
  · simp at h
  · simp at h
  · split at h
    · simp at h
    · simp at h
    · split at h
      · simp at h
      · split at h
        · simp at h
        · dsimp only at h
          rcases hscr : svc.screen now sess (mkDraftPayment req maker nid e2e now)
            with ⟨r, sx, p1⟩
          rw [hscr] at h
          cases r with
          | some hit =>
            simp only [Prod.mk.injEq, InitOutcome.frozenHit.injEq] at h
            obtain ⟨⟨-, hp⟩, -⟩ := h
            rw [← hp]
            obtain ⟨hp1, -⟩ := screen_hit_eq svc now sess _ hit sx p1 hscr
            rw [hp1]
            rfl
          | none =>
            rw [show advance_state "DRAFT" "PENDING_APPROVAL"
              = Except.ok "PENDING_APPROVAL" from rfl] at h
            simp at h

/-- C2: in every payment state reachable through any sequence of
`initiate_payment` / `approve_payment` / screening operations, a non-null
`checker_user_id` differs from `maker_user_id`. -/
theorem C2_four_eyes (p : Payment) (hp : ReachablePayment p) :
    ∀ c : String, p.checker_user_id = some c → c ≠ p.maker_user_id := by
  induction hp with
  | initiated env svc sess req maker nid e2e now p0 sess1 h =>
    intro c hc
    rw [initiate_ok_checker env svc sess req maker nid e2e now p0 sess1 h] at hc
    cases hc
  | frozen env svc sess req maker nid e2e now e p0 sess1 h =>
    intro c hc
    rw [initiate_frozen_checker env svc sess req maker nid e2e now e p0 sess1 h] at hc
    cases hc
  | approved M env svc sess p0 checker priv now hp0 ih =>
    intro c hc
    by_cases h1 : checker = p0.maker_user_id
    · rw [approve_self_payment M env svc sess p0 checker priv now h1] at hc ⊢
      exact ih c hc
    · by_cases h2 : p0.status = "PENDING_APPROVAL"
      · obtain ⟨hck, hmk⟩ := approve_main_checker M env svc sess p0 checker priv now h1 h2
        rw [hck] at hc
        rw [hmk]
        cases hc
        exact h1
      · rw [approve_badstatus_payment M env svc sess p0 checker priv now h1 h2] at hc ⊢
        exact ih c hc
  | screened svc now sess p0 hp0 ih =>
    intro c hc
    rcases hs : svc.screen now sess p0 with ⟨r, s1, p1⟩
    rw [hs] at hc
    dsimp only at hc ⊢
    cases r with
    | some hit =>
      obtain ⟨hp1, -⟩ := screen_hit_eq svc now sess p0 hit s1 p1 hs
      rw [hp1] at hc ⊢
      exact ih c hc
    | none =>
      obtain ⟨-, hp1⟩ := screen_none_eq svc now sess p0 s1 p1 hs
      rw [hp1] at hc ⊢
      exact ih c hc

/-- Witness for C2: a reachable approved payment whose checker `"bob"` is
indeed distinct from its maker. -/
theorem C2_witness : "bob" ≠ demoApproved.maker_user_id :=
  C2_four_eyes demoApproved
    (ReachablePayment.approved idealSig demoEnv {} demoSess demoPending "bob" 0 "T1"
      (ReachablePayment.initiated demoEnv {} demoSess demoReqClean "alice" "PID-1"
        "E2E-GEN" "T0" demoPending
        (auditLog demoSess "PID-1" "alice" "PAYMENT_INITIATED" none "T0")
        (by decide)))
    "bob" (by decide)

end Kubera
